import Mathlib

/-!
Verification development for the euclid-BE agentic chatbot backend.

The definitions below are a shallow embedding of the JavaScript sources:

* `src/utils/cache.js` — the in-memory TTL response cache (`setCache`,
  `getCache`); the JS `Map` is modelled as an association list with
  unique keys, and `Date.now()` is passed explicitly as a `Nat`.
* `src/middleware/roleCheck.js` — `findRuleForEndpoint` and the
  `requiresRoleForEndpoint` middleware (exact-match endpoint role policy,
  open when no rule matches).
* `src/config/auth0.js` — `getTokenFromRequest` (Bearer header or legacy
  `body.userToken`).
* `src/middleware/authz.js` — bot lookup + token extraction + remote JWT
  verification; the outcome of the external `jwtVerify` call is passed in
  as an explicit oracle (`Option TokenPayload`, `none` meaning it threw).
* `src/routes/proxy.js` (first document: the authz + roleCheck variant) —
  the dispatcher pipeline, with the upstream `fetch` outcome passed in as
  an oracle.
* `src/routes/chat.js` (first document: the Gemini variant) — the chat
  turn handler; the DB lookup, Pinecone retrieval, Gemini raw output,
  `JSON.parse` outcome and the proxy fetch result are explicit oracles.
  The tail of the second document (the older OpenAI variant) is embedded
  separately where its behaviour differs.

JavaScript truthiness on optional strings (`undefined`/`null`/"" are
falsy) is modelled by `jsTruthy`/`jsOrStr`.
-/

namespace EuclidBE

/-- Truthiness of a possibly-absent JS string: `undefined`, `null` and the
empty string are falsy, every other string is truthy. -/
def jsTruthy : Option String → Bool
  | none => false
  | some s => s != ""

/-- The JS idiom `x || d` on a possibly-absent string `x`. -/
def jsOrStr (x : Option String) (d : String) : String :=
  match x with
  | none => d
  | some s => if s == "" then d else s

/-- JS `String.prototype.trim`: strip whitespace from both ends. -/
def jsTrim (s : String) : String :=
  String.mk
    ((s.data.dropWhile Char.isWhitespace).reverse.dropWhile
      Char.isWhitespace).reverse

/-- JS `String.prototype.toLowerCase` (ASCII case folding). -/
def jsToLower (s : String) : String := String.mk (s.data.map Char.toLower)

/-! ### Response cache — src/utils/cache.js -/

/-- One cache entry, as stored by `setCache`: the cached value and its
absolute expiry time (`Date.now() + ttl`). -/
structure CacheEntry where
  value : String
  expiresAt : Nat
deriving Repr, DecidableEq

/-- The in-memory cache `Map`, modelled as an association list whose keys
are kept unique by construction. -/
abbrev Cache := List (String × CacheEntry)

/-- DEFAULT_TTL from cache.js: ten minutes in milliseconds. -/
def DEFAULT_TTL : Nat := 10 * 60 * 1000

/-- Lookup of a key in the cache map (`cache.get`). -/
def lookupC : Cache → String → Option CacheEntry
  | [], _ => none
  | (k, e) :: rest, key => if k = key then some e else lookupC rest key

/-- Deletion of a key from the cache map (`cache.delete`). -/
def eraseC : Cache → String → Cache
  | [], _ => []
  | (k, e) :: rest, key =>
      if k = key then eraseC rest key else (k, e) :: eraseC rest key

/-- setCache from cache.js: `cache.set(key, value, expiresAt: Date.now() + ttl)`. -/
def setCache (cache : Cache) (key value : String) (ttl now : Nat) : Cache :=
  (key, { value := value, expiresAt := now + ttl }) :: eraseC cache key

/-- getCache from cache.js. Returns the value (or `none`) together with the
cache after the lookup: an entry with `Date.now() > entry.expiresAt` is
deleted and reported absent (lazy expiry). -/
def getCache (cache : Cache) (key : String) (now : Nat) :
    Option String × Cache :=
  match lookupC cache key with
  | none => (none, cache)
  | some entry =>
      if now > entry.expiresAt then (none, eraseC cache key)
      else (some entry.value, cache)

/-! ### Endpoint role policy — src/middleware/roleCheck.js -/

/-- One entry of the bot's `endpointRoles` JSON blob:
`\x7b endpoint, roles \x7d`. -/
structure EndpointRule where
  endpoint : String
  roles : List String
deriving Repr, DecidableEq

/-- The tenant (bot) configuration record, restricted to the fields the
verified routes read. `endpointRoles` holds the result of
`JSON.parse(bot.endpointRoles || "[]")`: `none` means the stored blob was
unparseable (the `catch` branch of `findRuleForEndpoint`). -/
structure Bot where
  botId : String
  botName : String
  botPersona : String
  defaultPrompt : String
  apiBaseUrl : String
  authDomain : String
  authAudience : String
  rolesNamespace : String
  endpointRoles : Option (List EndpointRule)
deriving Repr, DecidableEq

/-- A verified JWT payload: the audience claim and the role claims keyed by
namespace (the code reads `user[bot.rolesNamespace]`). -/
structure TokenPayload where
  aud : List String
  claims : List (String × List String)
deriving Repr, DecidableEq

/-- The JS read `user?.[rolesNs] || []`. -/
def claimRoles (p : TokenPayload) (ns : String) : List String :=
  match p.claims.find? (fun c => c.fst == ns) with
  | none => []
  | some c => c.snd

/-- findRuleForEndpoint from roleCheck.js: first rule whose `endpoint`
exactly equals the requested endpoint; `null` when the blob is
unparseable or no rule matches. -/
def findRuleForEndpoint (bot : Bot) (endpoint : String) :
    Option EndpointRule :=
  match bot.endpointRoles with
  | none => none
  | some rules => rules.find? (fun r => r.endpoint == endpoint)

/-- The decision core shared by `requiresRoleForEndpoint` (roleCheck.js)
and the JWKS proxy variant (proxy.js, second document, lines 110-119):
permit when no rule matches the endpoint, otherwise permit iff some
allowed role is among the caller's roles. -/
def isPermitted (rules : List EndpointRule) (endpoint : String)
    (userRoles : List String) : Bool :=
  match rules.find? (fun r => r.endpoint == endpoint) with
  | none => true
  | some rule => rule.roles.any (fun r => userRoles.contains r)

/-- Outcome of the `requiresRoleForEndpoint` middleware. -/
inductive RoleCheckResult where
  | missingEndpoint
  | forbidden
  | proceed
deriving Repr, DecidableEq

/-- requiresRoleForEndpoint from roleCheck.js: 400 on a falsy endpoint,
`next()` when no rule is defined, 403 when the caller holds none of the
allowed roles. -/
def requiresRoleForEndpoint (bot : Bot) (user : Option TokenPayload)
    (endpoint : Option String) : RoleCheckResult :=
  if jsTruthy endpoint = false then .missingEndpoint
  else
    let ep := endpoint.getD ""
    match findRuleForEndpoint bot ep with
    | none => .proceed
    | some rule =>
        let userRoles :=
          match user with
          | none => []
          | some u => claimRoles u bot.rolesNamespace
        if rule.roles.any (fun r => userRoles.contains r) then .proceed
        else .forbidden

/-- In a rule list whose matching sublist for `ep` has at most one element,
any two matching members are equal. -/
theorem matching_rule_unique (rules : List EndpointRule) (ep : String)
    (huniq : (rules.filter (fun r => r.endpoint == ep)).length ≤ 1)
    (a b : EndpointRule) (ha : a ∈ rules) (hb : b ∈ rules)
    (hea : a.endpoint = ep) (heb : b.endpoint = ep) : a = b := by
  have hma : a ∈ rules.filter (fun r => r.endpoint == ep) := by
    simp [List.mem_filter, ha, hea]
  have hmb : b ∈ rules.filter (fun r => r.endpoint == ep) := by
    simp [List.mem_filter, hb, heb]
  match h : rules.filter (fun r => r.endpoint == ep) with
  | [] => rw [h] at hma; cases hma
  | [x] =>
      rw [h] at hma hmb
      have : a = x := by simpa using hma
      have : b = x := by simpa using hmb
      simp_all
  | x :: y :: rest => rw [h] at huniq; simp at huniq

/-- C1: for a tenant config whose policy blob parses and matches at most
one entry per endpoint (the data-model invariant), the access-policy
decision permits exactly when no entry's endpoint equals the requested
endpoint (open-by-default) or a matching entry's allowed roles intersect
the caller's roles; and the middleware proceeds exactly when this decision
permits. -/
theorem C1_access_policy (bot : Bot) (u : TokenPayload) (ep : String)
    (rules : List EndpointRule) (roles : List String)
    (hb : bot.endpointRoles = some rules)
    (hr : claimRoles u bot.rolesNamespace = roles)
    (hep : ep ≠ "")
    (huniq : (rules.filter (fun r => r.endpoint == ep)).length ≤ 1) :
    (isPermitted rules ep roles = true ↔
      ((∀ r ∈ rules, r.endpoint ≠ ep) ∨
        ∃ r ∈ rules, r.endpoint = ep ∧ ∃ x ∈ r.roles, x ∈ roles)) ∧
    (requiresRoleForEndpoint bot (some u) (some ep) =
        RoleCheckResult.proceed ↔ isPermitted rules ep roles = true) := by
  constructor
  · unfold isPermitted
    cases hfind : rules.find? (fun r => r.endpoint == ep) with
    | none =>
        simp only [true_iff]
        left
        intro r hrm
        have h2 := List.find?_eq_none.mp hfind r hrm
        simpa using h2
    | some rule =>
        have hmem : rule ∈ rules := List.mem_of_find?_eq_some hfind
        have hmatch : rule.endpoint = ep := by
          have h2 := List.find?_some hfind
          simpa using h2
        constructor
        · intro hany
          right
          refine ⟨rule, hmem, hmatch, ?_⟩
          rcases List.any_eq_true.mp hany with ⟨x, hx, hcx⟩
          exact ⟨x, hx, by simpa using hcx⟩
        · intro hor
          rcases hor with hnone | ⟨r, hrm, hre, x, hx, hxr⟩
          · exact absurd hmatch (hnone rule hmem)
          · have hrr : r = rule :=
              matching_rule_unique rules ep huniq r rule hrm hmem hre hmatch
            subst hrr
            exact List.any_eq_true.mpr ⟨x, hx, by simpa using hxr⟩
  · unfold requiresRoleForEndpoint isPermitted
    have htr : jsTruthy (some ep) = true := by
      simp [jsTruthy, hep]
    rw [htr]
    simp only [Bool.true_eq_false, if_false, Option.getD, findRuleForEndpoint, hb, hr]
    cases hfind : rules.find? (fun r => r.endpoint == ep) with
    | none => simp
    | some rule =>
        cases hany : rule.roles.any (fun r => roles.contains r) with
        | true => simp [hany]
        | false => simp [hany]

/-- Witness for C1 at a concrete tenant: one rule for "/refund" allowing
"admin", a caller holding "admin". -/
theorem C1_access_policy_witness :
    ((isPermitted [⟨"/refund", ["admin"]⟩] "/refund" ["viewer", "admin"] = true ↔
      ((∀ r ∈ [(⟨"/refund", ["admin"]⟩ : EndpointRule)], r.endpoint ≠ "/refund") ∨
        ∃ r ∈ [(⟨"/refund", ["admin"]⟩ : EndpointRule)], r.endpoint = "/refund" ∧
          ∃ x ∈ r.roles, x ∈ ["viewer", "admin"])) ∧
    (requiresRoleForEndpoint
        ⟨"b1", "n", "p", "d", "https://api.example.com", "ex.auth0.com",
          "aud1", "https://ns/roles", some [⟨"/refund", ["admin"]⟩]⟩
        (some ⟨["aud1"], [("https://ns/roles", ["viewer", "admin"])]⟩)
        (some "/refund") = RoleCheckResult.proceed ↔
      isPermitted [⟨"/refund", ["admin"]⟩] "/refund" ["viewer", "admin"] = true)) :=
  C1_access_policy
    ⟨"b1", "n", "p", "d", "https://api.example.com", "ex.auth0.com",
      "aud1", "https://ns/roles", some [⟨"/refund", ["admin"]⟩]⟩
    ⟨["aud1"], [("https://ns/roles", ["viewer", "admin"])]⟩
    "/refund" [⟨"/refund", ["admin"]⟩] ["viewer", "admin"]
    rfl (by decide) (by decide) (by decide)

/-! ### JSON.stringify fragments and substring helpers -/

/-- Minimal JSON string escaping (backslash and double quote), the part of
`JSON.stringify` exercised by the concrete inputs below. -/
def escJsonChar (c : Char) : List Char :=
  if c = '\\' then ['\\', '\\']
  else if c = '"' then ['\\', '"'] else [c]

/-- Escape a whole string for embedding in a JSON literal. -/
def escJson (s : String) : String :=
  String.mk (s.data.map escJsonChar).flatten

/-- Check that `needle` occurs at the head of `hay`. -/
def charsHasPfx : List Char → List Char → Bool
  | _, [] => true
  | [], _ :: _ => false
  | a :: as, b :: bs => a == b && charsHasPfx as bs

/-- Check that `needle` occurs somewhere in `hay`. -/
def charsContains : List Char → List Char → Bool
  | [], needle => needle.isEmpty
  | hay@(_ :: rest), needle => charsHasPfx hay needle || charsContains rest needle

/-- Substring occurrence test on strings. -/
def strContains (hay needle : String) : Bool :=
  charsContains hay.data needle.data

/-! ### Action dispatcher — src/routes/proxy.js (authz + roleCheck variant) -/

/-- The upstream fetch outcome observed by the proxy handler: HTTP status,
whether the declared content type includes application/json, and the body
(its serialized text). -/
structure UpstreamResponse where
  httpStatus : Nat
  contentTypeJson : Bool
  body : String
deriving Repr, DecidableEq

/-- JSON bodies the proxy route can answer with: the authz/roleCheck error
shape (an object holding only `error`), the handler failure shape
(`status: failed` plus `error`), and the success shape
(`status: success`, `data`, `httpStatus`). `dataIsStr` records whether
`data` was passed through as opaque text (and therefore serializes as a
JSON string) or as parsed JSON. -/
inductive ProxyRespBody where
  | errObj (error : String)
  | failedObj (error : String)
  | successObj (dataIsStr : Bool) (data : String) (httpStatus : Nat)
deriving Repr, DecidableEq

/-- JSON.stringify of a proxy response body, as performed by the chat route
on `proxyResult` (JS object key order is insertion order). -/
def stringifyProxyBody : ProxyRespBody → String
  | .errObj e => "\x7b\"error\":\"" ++ escJson e ++ "\"\x7d"
  | .failedObj e =>
      "\x7b\"status\":\"failed\",\"error\":\"" ++ escJson e ++ "\"\x7d"
  | .successObj isStr data hs =>
      "\x7b\"status\":\"success\",\"data\":" ++
        (if isStr then "\"" ++ escJson data ++ "\"" else data) ++
        ",\"httpStatus\":" ++ toString hs ++ "\x7d"

/-- JS `String.prototype.slice(n)` (drop the first n characters). -/
def strDrop (s : String) (n : Nat) : String := String.mk (s.data.drop n)

/-- JS `String.prototype.startsWith`. -/
def strStartsW (s pfx : String) : Bool := charsHasPfx s.data pfx.data

/-- getTokenFromRequest from src/config/auth0.js: a `Bearer` Authorization
header wins, the legacy `body.userToken` is the fallback, empty strings
are falsy at every step. -/
def getTokenFromRequest (authHeader bodyUserToken : Option String) :
    Option String :=
  let hdr := authHeader.getD ""
  let headerToken : Option String :=
    if strStartsW hdr "Bearer " then some (jsTrim (strDrop hdr 7)) else none
  if jsTruthy headerToken then headerToken
  else if jsTruthy bodyUserToken then bodyUserToken
  else none

/-- The request seen by POST /api/proxy. -/
structure ProxyReq where
  botId : Option String
  authHeader : Option String
  userToken : Option String
  endpoint : Option String
  method : Option String
  payload : Option String
deriving Repr, DecidableEq

/-- Oracles for the proxy route's external effects: the DB bot lookup, the
outcome of `verifyAccessToken` (none = it threw), and the upstream fetch
outcome (none = fetch or body decoding threw). -/
structure ProxyEnv where
  bot : Option Bot
  verified : Option TokenPayload
  upstream : Option UpstreamResponse
deriving Repr, DecidableEq

/-- The proxy route's observable outcome: HTTP status and body, whether the
upstream fetch was issued, and the issuer/audience arguments the authz
middleware handed to the token verifier (none when verification was never
attempted). -/
structure ProxyOut where
  status : Nat
  body : ProxyRespBody
  upstreamCalled : Bool
  verifierIssuer : Option String
  verifierAudience : Option String
deriving Repr, DecidableEq

/-- The full POST /api/proxy pipeline: authz middleware
(src/middleware/authz.js), then requiresRoleForEndpoint
(src/middleware/roleCheck.js), then the route handler
(src/routes/proxy.js, first document). -/
def proxyPipeline (req : ProxyReq) (env : ProxyEnv) : ProxyOut :=
  if jsTruthy req.botId = false then
    ⟨400, .errObj "Missing botId", false, none, none⟩
  else
    match env.bot with
    | none => ⟨404, .errObj "Bot not found", false, none, none⟩
    | some bot =>
        match getTokenFromRequest req.authHeader req.userToken with
        | none => ⟨401, .errObj "No access token provided", false, none, none⟩
        | some _token =>
            let issuer := "https://" ++ bot.authDomain ++ "/"
            let audience := bot.authAudience
            match env.verified with
            | none =>
                ⟨401, .errObj "Invalid or expired access token", false,
                  some issuer, some audience⟩
            | some user =>
                match requiresRoleForEndpoint bot (some user) req.endpoint with
                | .missingEndpoint =>
                    ⟨400, .errObj "Missing endpoint", false,
                      some issuer, some audience⟩
                | .forbidden =>
                    ⟨403, .errObj "Forbidden: insufficient role", false,
                      some issuer, some audience⟩
                | .proceed =>
                    if jsTruthy req.endpoint = false then
                      ⟨400, .failedObj "Missing endpoint", false,
                        some issuer, some audience⟩
                    else
                      match env.upstream with
                      | none =>
                          ⟨500, .failedObj "Proxy request failed", true,
                            some issuer, some audience⟩
                      | some u =>
                          ⟨200, .successObj (!u.contentTypeJson) u.body u.httpStatus,
                            true, some issuer, some audience⟩

/-! ### Chat turn — src/routes/chat.js (Gemini variant, first document) -/

/-- One retrieved chunk as returned by querySimilar (vectorStore.js). -/
structure Chunk where
  id : String
  text : String
  score : Nat
deriving Repr, DecidableEq

/-- The structured decision object produced by `JSON.parse` of the model's
raw output. Every field the code reads is optional, since
`JSON.parse` enforces no schema locally. `payload` carries the serialized
payload object. -/
structure DecisionJson where
  action : Option String
  endpoint : Option String
  method : Option String
  payload : Option String
  answer : Option String
deriving Repr, DecidableEq

/-- The `required` list of the responseSchema sent to Gemini
(chat.js line 135). -/
def responseSchemaRequired : List String := ["action", "answer"]

/-- The chat request body fields the route reads (`sessionId` carries the
user token). -/
structure ChatReq where
  botId : Option String
  message : Option String
  sessionId : Option String
deriving Repr, DecidableEq

/-- Oracles for the chat route's external effects: current time, cache
state, DB bot lookup, Pinecone retrieval, the `JSON.parse` outcome on the
model's raw output (none = it threw), and the JSON body returned by the
POST /api/proxy fetch. -/
structure ChatEnv where
  now : Nat
  cache : Cache
  bot : Option Bot
  chunks : List Chunk
  parsedModelOutput : Option DecisionJson
  proxyResult : ProxyRespBody
deriving Repr, DecidableEq

/-- JSON bodies the chat route answers with. -/
inductive ChatBody where
  | err (status error : String)
  | ok (botId response : String) (cached : Bool)
deriving Repr, DecidableEq

/-- The chat route's observable outcome: HTTP status, body, the cache after
the turn, and whether the model call and the proxy fetch were issued. -/
structure ChatResult where
  status : Nat
  body : ChatBody
  cacheAfter : Cache
  modelCalled : Bool
  proxyCalled : Bool
deriving Repr, DecidableEq

/-- Message normalization used for the cache key:
`userMessage.trim().toLowerCase()`. -/
def normalizeMsg (m : String) : String := jsToLower (jsTrim m)

/-- The cache key `botId + ":" + normalized message` (chat.js line 53). -/
def cacheKey (botId msg : String) : String := botId ++ ":" ++ normalizeMsg msg

/-- The POST /api/chat handler (chat.js, first document): input checks,
cache lookup, bot lookup, retrieval, Gemini call, JSON parse, optional
proxy dispatch, cache write. -/
def chatTurn (req : ChatReq) (env : ChatEnv) : ChatResult :=
  if jsTruthy req.botId = false then
    ⟨400, .err "failed" "Missing required field: botId", env.cache, false, false⟩
  else if jsTruthy req.message = false then
    ⟨400, .err "failed" "Missing required field: userMessage", env.cache, false, false⟩
  else if jsTruthy req.sessionId = false then
    ⟨400, .err "failed" "Missing required field: userToken", env.cache, false, false⟩
  else
    let botId := req.botId.getD ""
    let key := cacheKey botId (req.message.getD "")
    let looked := getCache env.cache key env.now
    match looked.fst with
    | some cached => ⟨200, .ok botId cached true, looked.snd, false, false⟩
    | none =>
        match env.bot with
        | none => ⟨404, .err "failed" "Bot not found", looked.snd, false, false⟩
        | some _bot =>
            if env.chunks.length = 0 then
              ⟨404, .err "failed" "No knowledge base found for this bot",
                looked.snd, false, false⟩
            else
              match env.parsedModelOutput with
              | none =>
                  ⟨502, .err "failed" "Failed to parse LLM response",
                    looked.snd, true, false⟩
              | some aiJson =>
                  let finalAnswer := jsOrStr aiJson.answer ""
                  if aiJson.action == some "call_api" then
                    let endpoint := jsOrStr aiJson.endpoint ""
                    if endpoint == "" then
                      ⟨400, .err "failed" "LLM requested action but did not specify endpoint",
                        looked.snd, true, false⟩
                    else
                      let finalAnswer2 := finalAnswer ++
                        "\n\nAction executed result: " ++
                        stringifyProxyBody env.proxyResult
                      ⟨200, .ok botId finalAnswer2 false,
                        setCache looked.snd key finalAnswer2 DEFAULT_TTL env.now,
                        true, true⟩
                  else
                    ⟨200, .ok botId finalAnswer false,
                      setCache looked.snd key finalAnswer DEFAULT_TTL env.now,
                      true, false⟩

/-! ### Older OpenAI chat variant (chat.js, second document), where its
behaviour differs: the decision-acquisition fallback and the tail of the
turn from the model call onward. -/

/-- The OpenAI variant's decision acquisition (lines 305-310): on
`JSON.parse` failure it silently substitutes the fallback decision with
`action: none` and the raw model text as `answer`. -/
def openAiDecision (parsed : Option DecisionJson) (content : String) :
    DecisionJson :=
  match parsed with
  | some j => j
  | none => ⟨some "none", none, none, none, some content⟩

/-- The tail of the OpenAI chat variant after retrieval: decision
acquisition, optional proxy call (`pr` is null unless `action = call_api`),
answer composition, cache write, HTTP 200 response. -/
def chatTurnOpenAITail (cache : Cache) (now : Nat) (key botId : String)
    (parsed : Option DecisionJson) (content : String)
    (proxyResult : Option ProxyRespBody) : ChatResult :=
  let aiOutput := openAiDecision parsed content
  let isCall := aiOutput.action == some "call_api"
  let pr : Option ProxyRespBody := if isCall then proxyResult else none
  let fa := jsOrStr aiOutput.answer ""
  let fa2 :=
    match pr with
    | some r => fa ++ "\n\nAction executed result: " ++ stringifyProxyBody r
    | none => fa
  ⟨200, .ok botId fa2 false, setCache cache key fa2 DEFAULT_TTL now, true, isCall⟩

/-! ### Concrete sample inputs shared by witnesses and counterexamples -/

/-- A sample tenant configuration. -/
def sampleBot : Bot :=
  ⟨"b1", "Euclid", "helpful assistant", "be nice", "https://api.example.com",
    "ex.auth0.com", "tenant-aud", "https://ns/roles", some []⟩

/-- A sample retrieved chunk. -/
def sampleChunk : Chunk := ⟨"c1", "refunds take 5 days", 1⟩

/-- A chat request with no token (`sessionId` absent). -/
def c2req : ChatReq := ⟨some "b1", some "hi", none⟩

/-- An environment whose model decision requests an action. -/
def c2envCall : ChatEnv :=
  ⟨0, [], some sampleBot, [sampleChunk],
    some ⟨some "call_api", some "/refund", some "POST", none, some "ok"⟩,
    .errObj "x"⟩

/-- An environment whose model decision is pure retrieval (action none). -/
def c2envNone : ChatEnv :=
  ⟨0, [], some sampleBot, [sampleChunk],
    some ⟨some "none", none, none, none, some "ok"⟩,
    .errObj "x"⟩

/-- C2 counterexample: with no bearer token on the inbound request, an
action turn ends with HTTP 400 (not the claimed 401) and a pure-retrieval
turn with no token also ends with 400 rather than completing. The
dispatcher is never invoked. -/
theorem C2_counterexample :
    (chatTurn c2req c2envCall).status = 400 ∧
    ¬(chatTurn c2req c2envCall).status = 401 ∧
    (chatTurn c2req c2envCall).proxyCalled = false ∧
    (chatTurn c2req c2envNone).status = 400 ∧
    ¬(chatTurn c2req c2envNone).status = 200 := by
  decide

/-- C2 amended: every chat turn with no bearer token — action or pure
retrieval alike — terminates with HTTP 400 "Missing required field:
userToken" before the cache lookup, retrieval, model call or dispatch; the
dispatcher and the model are never invoked and the cache is untouched. -/
theorem C2_amended (req : ChatReq) (env : ChatEnv)
    (hb : jsTruthy req.botId = true) (hm : jsTruthy req.message = true)
    (hs : jsTruthy req.sessionId = false) :
    chatTurn req env =
      ⟨400, .err "failed" "Missing required field: userToken",
        env.cache, false, false⟩ := by
  unfold chatTurn
  simp [hb, hm, hs]

/-- Witness for C2 amended at the concrete no-token action request. -/
theorem C2_witness :
    chatTurn c2req c2envCall =
      ⟨400, .err "failed" "Missing required field: userToken",
        c2envCall.cache, false, false⟩ :=
  C2_amended c2req c2envCall (by decide) (by decide) (by decide)

/-- C8: when retrieval returns an empty chunk sequence (and the earlier
steps pass: fields present, cache miss, bot found), the turn terminates
with HTTP 404 "No knowledge base found for this bot" and the language
model is never invoked. -/
theorem C8_empty_retrieval (req : ChatReq) (env : ChatEnv) (bot : Bot)
    (hb : jsTruthy req.botId = true) (hm : jsTruthy req.message = true)
    (hs : jsTruthy req.sessionId = true)
    (hmiss : (getCache env.cache
        (cacheKey (req.botId.getD "") (req.message.getD "")) env.now).fst = none)
    (hbot : env.bot = some bot)
    (hchunks : env.chunks = []) :
    chatTurn req env =
      ⟨404, .err "failed" "No knowledge base found for this bot",
        (getCache env.cache
          (cacheKey (req.botId.getD "") (req.message.getD "")) env.now).snd,
        false, false⟩ := by
  unfold chatTurn
  simp [hb, hm, hs, hmiss, hbot, hchunks]

/-- Witness for C8 at a concrete request with an empty knowledge base. -/
theorem C8_witness :
    chatTurn ⟨some "b1", some "hi", some "tok"⟩
        ⟨0, [], some sampleBot, [], none, .errObj "x"⟩ =
      ⟨404, .err "failed" "No knowledge base found for this bot",
        [], false, false⟩ :=
  C8_empty_retrieval ⟨some "b1", some "hi", some "tok"⟩
    ⟨0, [], some sampleBot, [], none, .errObj "x"⟩ sampleBot
    (by decide) (by decide) (by decide) (by decide) rfl rfl

/-- C10: when the normalized cache key holds an unexpired entry, the
handler answers 200 with the cached value and `cached = true` before the
bot configuration is looked up — here even though no bot with the given
botId exists (`env.bot = none`), so the 404 "Bot not found" check is
unreachable on the cache-hit path. -/
theorem C10_cache_hit_before_bot (req : ChatReq) (env : ChatEnv)
    (v : String) (c1 : Cache)
    (hb : jsTruthy req.botId = true) (hm : jsTruthy req.message = true)
    (hs : jsTruthy req.sessionId = true)
    (_hbot : env.bot = none)
    (hhit : getCache env.cache
        (cacheKey (req.botId.getD "") (req.message.getD "")) env.now = (some v, c1)) :
    chatTurn req env =
      ⟨200, .ok (req.botId.getD "") v true, c1, false, false⟩ := by
  unfold chatTurn
  simp [hb, hm, hs, hhit]

/-- Witness for C10 at a concrete cache-hit request whose bot does not
exist. -/
theorem C10_witness :
    chatTurn ⟨some "b1", some "hi", some "tok"⟩
        ⟨5, [("b1:hi", ⟨"cached answer", 100⟩)], none, [], none, .errObj "x"⟩ =
      ⟨200, .ok "b1" "cached answer" true,
        [("b1:hi", ⟨"cached answer", 100⟩)], false, false⟩ :=
  C10_cache_hit_before_bot ⟨some "b1", some "hi", some "tok"⟩
    ⟨5, [("b1:hi", ⟨"cached answer", 100⟩)], none, [], none, .errObj "x"⟩
    "cached answer" [("b1:hi", ⟨"cached answer", 100⟩)]
    (by decide) (by decide) (by decide) rfl (by decide)

/-! ### C3 — the dispatcher's (absent) audience re-check -/

/-- A verified payload whose audience claim does not contain the sample
tenant's configured audience. -/
def c3payload : TokenPayload := ⟨["other-aud"], [("https://ns/roles", ["admin"])]⟩

/-- A well-formed action request to the proxy route. -/
def c3req : ProxyReq :=
  ⟨some "b1", some "Bearer tok123", none, some "/refund", some "POST", none⟩

/-- A proxy environment where verification succeeded with the
audience-mismatched payload and the upstream answers 200. -/
def c3env : ProxyEnv := ⟨some sampleBot, some c3payload, some ⟨200, true, "\x7b\x7d"⟩⟩

/-- C3 counterexample: the dispatcher performs no audience re-check — with
a verified payload whose `aud` claim does not contain the tenant's
configured audience, the dispatch is still forwarded upstream and succeeds
instead of being rejected with an AudienceMismatch error. -/
theorem C3_counterexample :
    (proxyPipeline c3req c3env).upstreamCalled = true ∧
    (proxyPipeline c3req c3env).status = 200 ∧
    (proxyPipeline c3req c3env).body = .successObj false "\x7b\x7d" 200 ∧
    sampleBot.authAudience ∉ c3payload.aud := by
  decide

/-- The role-check middleware reads the verified payload only through its
role claims under the bot's namespace. -/
theorem roleCheck_depends_only_on_roles (bot : Bot) (p1 p2 : TokenPayload)
    (e : Option String)
    (hroles : claimRoles p1 bot.rolesNamespace = claimRoles p2 bot.rolesNamespace) :
    requiresRoleForEndpoint bot (some p1) e =
      requiresRoleForEndpoint bot (some p2) e := by
  unfold requiresRoleForEndpoint
  simp only [hroles]

/-- C3 amended: the dispatcher itself performs no independent audience
check — its outcome is unchanged under any change of the verified
payload that preserves the role claims (in particular any change of the
`aud` claim); the only audience validation is the one inside token
verification, which the authz middleware invokes with the tenant's
configured audience (and issuer `https://` + authDomain + `/`). -/
theorem C3_amended (req : ProxyReq) (env : ProxyEnv) (bot : Bot)
    (p1 p2 : TokenPayload) (t : String)
    (hb : jsTruthy req.botId = true)
    (hbot : env.bot = some bot)
    (hroles : claimRoles p1 bot.rolesNamespace = claimRoles p2 bot.rolesNamespace)
    (htok : getTokenFromRequest req.authHeader req.userToken = some t) :
    proxyPipeline req { env with verified := some p1 } =
      proxyPipeline req { env with verified := some p2 } ∧
    (proxyPipeline req { env with verified := some p1 }).verifierAudience =
      some bot.authAudience := by
  have hrc := roleCheck_depends_only_on_roles bot p1 p2 req.endpoint hroles
  constructor
  · unfold proxyPipeline
    rw [hb]
    simp only [Bool.true_eq_false, if_false, hbot, htok, hrc]
  · unfold proxyPipeline
    rw [hb]
    simp only [Bool.true_eq_false, if_false, hbot, htok]
    cases requiresRoleForEndpoint bot (some p1) req.endpoint with
    | missingEndpoint => rfl
    | forbidden => rfl
    | proceed =>
        cases jsTruthy req.endpoint with
        | false => rfl
        | true =>
            cases env.upstream with
            | none => rfl
            | some u => rfl

/-- Witness for C3 amended at the concrete audience-mismatched dispatch. -/
theorem C3_witness :
    proxyPipeline c3req { c3env with verified := some c3payload } =
      proxyPipeline c3req { c3env with verified := some ⟨["tenant-aud"], [("https://ns/roles", ["admin"])]⟩ } ∧
    (proxyPipeline c3req { c3env with verified := some c3payload }).verifierAudience =
      some sampleBot.authAudience :=
  C3_amended c3req c3env sampleBot c3payload
    ⟨["tenant-aud"], [("https://ns/roles", ["admin"])]⟩ "tok123"
    (by decide) rfl (by decide) (by decide)

/-! ### C4 — decision parse failure handling -/

/-- A well-formed chat request (all fields present). -/
def c4req : ChatReq := ⟨some "b1", some "hi", some "tok"⟩

/-- A chat environment where the model's raw output is unparseable. -/
def c4envParseFail : ChatEnv := ⟨0, [], some sampleBot, [sampleChunk], none, .errObj "x"⟩

/-- C4 counterexample: the older OpenAI chat variant, on an unparseable
model output, substitutes the default decision (action none, answer = the
raw model text) and completes the turn with HTTP 200 — it neither stops
after the failed parse nor surfaces a 502. -/
theorem C4_counterexample :
    openAiDecision none "raw model text" =
      ⟨some "none", none, none, none, some "raw model text"⟩ ∧
    (chatTurnOpenAITail [] 0 "b1:hi" "b1" none "raw model text" none).status = 200 ∧
    ¬(chatTurnOpenAITail [] 0 "b1:hi" "b1" none "raw model text" none).status = 502 ∧
    (chatTurnOpenAITail [] 0 "b1:hi" "b1" none "raw model text" none).body =
      .ok "b1" "raw model text" false := by
  decide

/-- C4 amended: the current (Gemini) chat route attempts exactly one parse
and, on failure, terminates the turn with the distinguishable HTTP 502
"Failed to parse LLM response" without substituting any decision and
without dispatching; but the file's older OpenAI variant instead
substitutes the fallback decision (action none, answer = raw text) and
completes the turn with HTTP 200. -/
theorem C4_amended (req : ChatReq) (env : ChatEnv) (bot : Bot)
    (cache : Cache) (now : Nat) (key botId content : String)
    (pr : Option ProxyRespBody)
    (hb : jsTruthy req.botId = true) (hm : jsTruthy req.message = true)
    (hs : jsTruthy req.sessionId = true)
    (hmiss : (getCache env.cache
        (cacheKey (req.botId.getD "") (req.message.getD "")) env.now).fst = none)
    (hbot : env.bot = some bot)
    (hchunks : env.chunks ≠ [])
    (hparse : env.parsedModelOutput = none)
    (hcontent : content ≠ "") :
    chatTurn req env =
      ⟨502, .err "failed" "Failed to parse LLM response",
        (getCache env.cache
          (cacheKey (req.botId.getD "") (req.message.getD "")) env.now).snd,
        true, false⟩ ∧
    chatTurnOpenAITail cache now key botId none content pr =
      ⟨200, .ok botId content false, setCache cache key content DEFAULT_TTL now,
        true, false⟩ := by
  constructor
  · have hlen : ¬env.chunks.length = 0 := by simpa using hchunks
    unfold chatTurn
    simp [hb, hm, hs, hmiss, hbot, hparse, hlen]
  · unfold chatTurnOpenAITail openAiDecision
    have hc : (content == "") = false := by simpa using hcontent
    simp [jsOrStr, hc]

/-- Witness for C4 amended at the concrete unparseable output. -/
theorem C4_witness :
    chatTurn c4req c4envParseFail =
      ⟨502, .err "failed" "Failed to parse LLM response",
        (getCache c4envParseFail.cache
          (cacheKey (c4req.botId.getD "") (c4req.message.getD ""))
          c4envParseFail.now).snd,
        true, false⟩ ∧
    chatTurnOpenAITail [] 7 "b1:hi" "b1" none "some raw text" none =
      ⟨200, .ok "b1" "some raw text" false,
        setCache [] "b1:hi" "some raw text" DEFAULT_TTL 7, true, false⟩ :=
  C4_amended c4req c4envParseFail sampleBot [] 7 "b1:hi" "b1" "some raw text" none
    (by decide) (by decide) (by decide) (by decide) rfl
    (by decide) rfl (by decide)

/-! ### C5 — missing `answer` is coerced, not rejected -/

/-- A parsed decision with no `answer` field (valid JSON such as
`\x7b"action":"none"\x7d` parses to this). -/
def c5dec : DecisionJson := ⟨some "none", none, none, none, none⟩

/-- A chat environment whose parsed decision lacks `answer`. -/
def c5env : ChatEnv := ⟨0, [], some sampleBot, [sampleChunk], some c5dec, .errObj "x"⟩

/-- C5 counterexample: a parsed decision with no `answer` is not rejected —
the turn completes with HTTP 200 and the answer silently coerced to the
empty string, which is also written to the cache. -/
theorem C5_counterexample :
    c5dec.answer = none ∧
    chatTurn c4req c5env =
      ⟨200, .ok "b1" "" false, [("b1:hi", ⟨"", 600000⟩)], true, false⟩ := by
  decide

/-- C5 amended: the `required` list of the response schema sent to the
model does demand `answer`, but the core never re-validates: a parsed
decision missing `answer` (here on the action-free path) is coerced to
the empty string by `aiJson.answer || ""` and the turn completes with
HTTP 200, the empty answer being cached. -/
theorem C5_amended (req : ChatReq) (env : ChatEnv) (bot : Bot) (d : DecisionJson)
    (hb : jsTruthy req.botId = true) (hm : jsTruthy req.message = true)
    (hs : jsTruthy req.sessionId = true)
    (hmiss : (getCache env.cache
        (cacheKey (req.botId.getD "") (req.message.getD "")) env.now).fst = none)
    (hbot : env.bot = some bot)
    (hchunks : env.chunks ≠ [])
    (hparse : env.parsedModelOutput = some d)
    (hanswer : d.answer = none)
    (haction : d.action = some "none") :
    "answer" ∈ responseSchemaRequired ∧
    chatTurn req env =
      ⟨200, .ok (req.botId.getD "") "" false,
        setCache
          (getCache env.cache
            (cacheKey (req.botId.getD "") (req.message.getD "")) env.now).snd
          (cacheKey (req.botId.getD "") (req.message.getD ""))
          "" DEFAULT_TTL env.now,
        true, false⟩ := by
  constructor
  · simp [responseSchemaRequired]
  · have hlen : ¬env.chunks.length = 0 := by simpa using hchunks
    unfold chatTurn
    simp [hb, hm, hs, hmiss, hbot, hparse, hlen, hanswer, haction, jsOrStr]

/-- Witness for C5 amended at the concrete answer-less decision. -/
theorem C5_witness :
    "answer" ∈ responseSchemaRequired ∧
    chatTurn c4req c5env =
      ⟨200, .ok (c4req.botId.getD "") "" false,
        setCache
          (getCache c5env.cache
            (cacheKey (c4req.botId.getD "") (c4req.message.getD ""))
            c5env.now).snd
          (cacheKey (c4req.botId.getD "") (c4req.message.getD ""))
          "" DEFAULT_TTL c5env.now,
        true, false⟩ :=
  C5_amended c4req c5env sampleBot c5dec
    (by decide) (by decide) (by decide) (by decide) rfl
    (by decide) rfl rfl rfl

/-! ### C6 — upstream action failure folded into the answer -/

/-- Occurrence is preserved when extending the haystack on the left. -/
theorem charsContains_append_right (xs ys n : List Char)
    (h : charsContains ys n = true) : charsContains (xs ++ ys) n = true := by
  induction xs with
  | nil => simpa using h
  | cons x xs ih => simp [charsContains, ih]

/-- Substring occurrence is preserved when prepending to the haystack. -/
theorem strContains_append_right (a b n : String) (h : strContains b n = true) :
    strContains (a ++ b) n = true := by
  unfold strContains at h ⊢
  rw [String.data_append]
  exact charsContains_append_right a.data b.data n.data h

/-- A model decision requesting a dispatch to /refund. -/
def c6dec : DecisionJson :=
  ⟨some "call_api", some "/refund", some "POST", none, some "Okay."⟩

/-- The proxy request the chat route issues for that decision. -/
def c6preq : ProxyReq :=
  ⟨some "b1", none, some "tok", some "/refund", some "POST", none⟩

/-- A verified payload carrying the tenant audience and an admin role. -/
def c6payload : TokenPayload := ⟨["tenant-aud"], [("https://ns/roles", ["admin"])]⟩

/-- An upstream that fails with HTTP 500 and a JSON error body. -/
def c6upstream : UpstreamResponse := ⟨500, true, "\x7b\"error\":\"boom\"\x7d"⟩

/-- The proxy environment for the failing dispatch. -/
def c6penv : ProxyEnv := ⟨some sampleBot, some c6payload, some c6upstream⟩

/-- The chat environment whose proxy fetch returns the proxy route's
response to the failing dispatch. -/
def c6env : ChatEnv :=
  ⟨0, [], some sampleBot, [sampleChunk], some c6dec,
    (proxyPipeline c6preq c6penv).body⟩

/-- C6 counterexample: with the upstream returning HTTP 500, the turn
completes with HTTP 200 and the answer carries the appended caveat with
the upstream status code — but the caveat does not reference the failed
endpoint ("/refund" occurs nowhere in the response text). -/
theorem C6_counterexample :
    (chatTurn c4req c6env).status = 200 ∧
    (chatTurn c4req c6env).body =
      .ok "b1"
        "Okay.\n\nAction executed result: \x7b\"status\":\"success\",\"data\":\x7b\"error\":\"boom\"\x7d,\"httpStatus\":500\x7d"
        false ∧
    strContains
      "Okay.\n\nAction executed result: \x7b\"status\":\"success\",\"data\":\x7b\"error\":\"boom\"\x7d,\"httpStatus\":500\x7d"
      "/refund" = false ∧
    c6dec.endpoint = some "/refund" := by
  decide

/-- C6 amended: when the dispatched upstream call returns HTTP 500, the
turn still completes with HTTP 200 and the answer text is the model's
answer with the delimited caveat "Action executed result: ..." appended,
containing the proxy result with the upstream status code (the substring
"httpStatus":500) — but not the endpoint; the failure is never surfaced
as a request failure. -/
theorem C6_amended (req : ChatReq) (env : ChatEnv) (bot pbot : Bot)
    (d : DecisionJson) (preq : ProxyReq) (penv : ProxyEnv)
    (pu : TokenPayload) (t : String) (u : UpstreamResponse)
    (hb : jsTruthy req.botId = true) (hm : jsTruthy req.message = true)
    (hs : jsTruthy req.sessionId = true)
    (hmiss : (getCache env.cache
        (cacheKey (req.botId.getD "") (req.message.getD "")) env.now).fst = none)
    (hbot : env.bot = some bot)
    (hchunks : env.chunks ≠ [])
    (hparse : env.parsedModelOutput = some d)
    (haction : d.action = some "call_api")
    (hep : (jsOrStr d.endpoint "" == "") = false)
    (hpb : jsTruthy preq.botId = true)
    (hpbot : penv.bot = some pbot)
    (hptok : getTokenFromRequest preq.authHeader preq.userToken = some t)
    (hpver : penv.verified = some pu)
    (hprc : requiresRoleForEndpoint pbot (some pu) preq.endpoint =
      RoleCheckResult.proceed)
    (hpep : jsTruthy preq.endpoint = true)
    (hup : penv.upstream = some u)
    (hu500 : u.httpStatus = 500)
    (hlink : env.proxyResult = (proxyPipeline preq penv).body) :
    chatTurn req env =
      ⟨200,
        .ok (req.botId.getD "")
          (jsOrStr d.answer "" ++ "\n\nAction executed result: " ++
            stringifyProxyBody
              (.successObj (!u.contentTypeJson) u.body 500)) false,
        setCache
          (getCache env.cache
            (cacheKey (req.botId.getD "") (req.message.getD "")) env.now).snd
          (cacheKey (req.botId.getD "") (req.message.getD ""))
          (jsOrStr d.answer "" ++ "\n\nAction executed result: " ++
            stringifyProxyBody
              (.successObj (!u.contentTypeJson) u.body 500))
          DEFAULT_TTL env.now,
        true, true⟩ ∧
    strContains
      (jsOrStr d.answer "" ++ "\n\nAction executed result: " ++
        stringifyProxyBody (.successObj (!u.contentTypeJson) u.body 500))
      "\"httpStatus\":500" = true := by
  have hbody : (proxyPipeline preq penv).body =
      .successObj (!u.contentTypeJson) u.body 500 := by
    unfold proxyPipeline
    rw [hpb]
    simp [hpbot, hptok, hpver, hprc, hpep, hup, hu500]
  have hlen : ¬env.chunks.length = 0 := by simpa using hchunks
  constructor
  · unfold chatTurn
    simp [hb, hm, hs, hmiss, hbot, hlen, hparse, haction, hep, hlink, hbody]
  · apply strContains_append_right
    have hshape : stringifyProxyBody
        (ProxyRespBody.successObj (!u.contentTypeJson) u.body 500) =
        ("\x7b\"status\":\"success\",\"data\":" ++
          (if (!u.contentTypeJson) = true then "\"" ++ escJson u.body ++ "\""
            else u.body)) ++
        (",\"httpStatus\":" ++ toString (500 : Nat) ++ "\x7d") := by
      simp [stringifyProxyBody, String.append_assoc]
    rw [hshape]
    apply strContains_append_right
    decide

/-- Witness for C6 amended at the concrete failing dispatch. -/
theorem C6_witness :
    chatTurn c4req c6env =
      ⟨200,
        .ok (c4req.botId.getD "")
          (jsOrStr c6dec.answer "" ++ "\n\nAction executed result: " ++
            stringifyProxyBody
              (.successObj (!c6upstream.contentTypeJson) c6upstream.body 500)) false,
        setCache
          (getCache c6env.cache
            (cacheKey (c4req.botId.getD "") (c4req.message.getD ""))
            c6env.now).snd
          (cacheKey (c4req.botId.getD "") (c4req.message.getD ""))
          (jsOrStr c6dec.answer "" ++ "\n\nAction executed result: " ++
            stringifyProxyBody
              (.successObj (!c6upstream.contentTypeJson) c6upstream.body 500))
          DEFAULT_TTL c6env.now,
        true, true⟩ ∧
    strContains
      (jsOrStr c6dec.answer "" ++ "\n\nAction executed result: " ++
        stringifyProxyBody
          (.successObj (!c6upstream.contentTypeJson) c6upstream.body 500))
      "\"httpStatus\":500" = true :=
  C6_amended c4req c6env sampleBot sampleBot c6dec c6preq c6penv
    c6payload "tok" c6upstream
    (by decide) (by decide) (by decide) (by decide) rfl (by decide) rfl
    rfl (by decide) (by decide) rfl (by decide) rfl (by decide) rfl rfl rfl rfl

/-! ### Cache lemmas shared by C7 and C9 -/

/-- A freshly written key is found with the written value and expiry. -/
theorem lookupC_setCache_self (c : Cache) (k v : String) (ttl now : Nat) :
    lookupC (setCache c k v ttl now) k = some ⟨v, now + ttl⟩ := by
  simp [setCache, lookupC]

/-- A deleted key is absent. -/
theorem lookupC_eraseC_self (c : Cache) (k : String) :
    lookupC (eraseC c k) k = none := by
  induction c with
  | nil => rfl
  | cons p rest ih =>
      obtain ⟨pk, pe⟩ := p
      by_cases h : pk = k
      · simp [eraseC, h, ih]
      · simp [eraseC, lookupC, h, ih]

/-- Deleting one key leaves every other key's entry unchanged. -/
theorem lookupC_eraseC_ne (c : Cache) (k k2 : String) (h : k2 ≠ k) :
    lookupC (eraseC c k) k2 = lookupC c k2 := by
  induction c with
  | nil => rfl
  | cons p rest ih =>
      obtain ⟨pk, pe⟩ := p
      by_cases hp : pk = k
      · subst hp
        simp [eraseC, lookupC, Ne.symm h, ih]
      · by_cases h2 : pk = k2 <;> simp [eraseC, lookupC, hp, h2, h, ih]

/-- The lazy eviction a lookup performs is invisible to any later lookup:
for every key, the observable value at any time not earlier than the
lookup is the same in the pre- and post-lookup cache. -/
theorem getCache_snd_obs (c : Cache) (key k : String) (now now2 : Nat)
    (hle : now ≤ now2) :
    (getCache (getCache c key now).snd k now2).fst =
      (getCache c k now2).fst := by
  unfold getCache
  cases hl : lookupC c key with
  | none => simp
  | some e =>
      by_cases hexp : now > e.expiresAt
      · simp only [hexp, if_true]
        by_cases hk : k = key
        · subst hk
          rw [lookupC_eraseC_self, hl]
          have h2 : now2 > e.expiresAt := lt_of_lt_of_le hexp hle
          simp [h2]
        · rw [lookupC_eraseC_ne c key k hk]
          cases lookupC c k with
          | none => rfl
          | some e2 => by_cases h3 : now2 > e2.expiresAt <;> simp [h3]
      · simp [hexp]

/-! ### C7 — cache idempotence, key normalization, lazy expiry -/

/-- First request of the C7 scenario (message with case and whitespace
noise). -/
def c7req1 : ChatReq := ⟨some "b1", some " Hi ", some "tok"⟩

/-- Second request of the C7 scenario (normalized variant of the same
message, different session token). -/
def c7req2 : ChatReq := ⟨some "b1", some "hi", some "tok2"⟩

/-- A pure-retrieval decision with an answer. -/
def c7dec : DecisionJson := ⟨some "none", none, none, none, some "All good."⟩

/-- Environment of the first C7 turn: empty cache, bot and knowledge
present. -/
def c7env1 : ChatEnv := ⟨100, [], some sampleBot, [sampleChunk], some c7dec, .errObj "x"⟩

/-- A cache holding an expired entry under key "k". -/
def c7expiredCache : Cache := [("k", ⟨"v", 3⟩)]

/-- C7: (i) the cache key is built from the tenant id plus the trimmed,
lower-cased message, so case/whitespace variants share a key; (ii) a
completed turn writes its answer under that key and an identical turn
(same tenant, message equal modulo case/whitespace) within the TTL window
returns the same answer marked `cached = true`; (iii) an entry whose
`expiresAt` has passed is reported absent and evicted on lookup. -/
theorem C7_cache_idempotence
    (req1 req2 : ChatReq) (env1 : ChatEnv) (bot : Bot) (d : DecisionJson)
    (m1 m2 : String) (now2 : Nat)
    (c : Cache) (ck : String) (e : CacheEntry) (n : Nat)
    (hm1 : req1.message = some m1) (hm2 : req2.message = some m2)
    (hb1 : jsTruthy req1.botId = true) (hmsg1 : jsTruthy req1.message = true)
    (hs1 : jsTruthy req1.sessionId = true)
    (hb2 : req2.botId = req1.botId) (hmsg2 : jsTruthy req2.message = true)
    (hs2 : jsTruthy req2.sessionId = true)
    (hnorm : normalizeMsg m1 = normalizeMsg m2)
    (hmiss : (getCache env1.cache
        (cacheKey (req1.botId.getD "") m1) env1.now).fst = none)
    (hbot : env1.bot = some bot) (hchunks : env1.chunks ≠ [])
    (hparse : env1.parsedModelOutput = some d)
    (haction : d.action = some "none")
    (hwindow : now2 ≤ env1.now + DEFAULT_TTL)
    (hlook : lookupC c ck = some e) (hexp : n > e.expiresAt) :
    cacheKey (req1.botId.getD "") m1 = cacheKey (req1.botId.getD "") m2 ∧
    chatTurn req1 env1 =
      ⟨200, .ok (req1.botId.getD "") (jsOrStr d.answer "") false,
        setCache
          (getCache env1.cache (cacheKey (req1.botId.getD "") m1) env1.now).snd
          (cacheKey (req1.botId.getD "") m1) (jsOrStr d.answer "")
          DEFAULT_TTL env1.now,
        true, false⟩ ∧
    chatTurn req2
        { env1 with cache := (chatTurn req1 env1).cacheAfter, now := now2 } =
      ⟨200, .ok (req1.botId.getD "") (jsOrStr d.answer "") true,
        (chatTurn req1 env1).cacheAfter, false, false⟩ ∧
    getCache c ck n = (none, eraseC c ck) ∧
    lookupC (eraseC c ck) ck = none := by
  have hkey : cacheKey (req1.botId.getD "") m1 =
      cacheKey (req1.botId.getD "") m2 := by
    unfold cacheKey normalizeMsg at *
    rw [hnorm]
  have hlen : ¬env1.chunks.length = 0 := by simpa using hchunks
  have hget1 : req1.message.getD "" = m1 := by rw [hm1]; rfl
  have hget2 : req2.message.getD "" = m2 := by rw [hm2]; rfl
  have h1 : chatTurn req1 env1 =
      ⟨200, .ok (req1.botId.getD "") (jsOrStr d.answer "") false,
        setCache
          (getCache env1.cache (cacheKey (req1.botId.getD "") m1) env1.now).snd
          (cacheKey (req1.botId.getD "") m1) (jsOrStr d.answer "")
          DEFAULT_TTL env1.now,
        true, false⟩ := by
    unfold chatTurn
    simp [hb1, hmsg1, hs1, hget1, hmiss, hbot, hlen, hparse, haction]
  refine ⟨hkey, h1, ?_, ?_, ?_⟩
  · rw [h1]
    have hnot : ¬(now2 > env1.now + DEFAULT_TTL) := by omega
    have hhit : getCache
        (setCache
          (getCache env1.cache (cacheKey (req1.botId.getD "") m1) env1.now).snd
          (cacheKey (req1.botId.getD "") m1) (jsOrStr d.answer "")
          DEFAULT_TTL env1.now)
        (cacheKey (req1.botId.getD "") m1) now2 =
        (some (jsOrStr d.answer ""),
          setCache
            (getCache env1.cache (cacheKey (req1.botId.getD "") m1) env1.now).snd
            (cacheKey (req1.botId.getD "") m1) (jsOrStr d.answer "")
            DEFAULT_TTL env1.now) := by
      unfold getCache
      rw [lookupC_setCache_self]
      simp [hnot]
    unfold chatTurn
    simp only [hb2, hb1, hmsg2, hs2, hget2, Bool.true_eq_false, if_false]
    rw [← hkey]
    simp [hhit]
  · unfold getCache
    rw [hlook]
    simp [hexp]
  · exact lookupC_eraseC_self c ck

/-- Witness for C7 at a concrete pair of case/whitespace-variant turns and
a concrete expired entry. -/
theorem C7_witness :
    cacheKey (c7req1.botId.getD "") " Hi " = cacheKey (c7req1.botId.getD "") "hi" ∧
    chatTurn c7req1 c7env1 =
      ⟨200, .ok (c7req1.botId.getD "") (jsOrStr c7dec.answer "") false,
        setCache
          (getCache c7env1.cache
            (cacheKey (c7req1.botId.getD "") " Hi ") c7env1.now).snd
          (cacheKey (c7req1.botId.getD "") " Hi ") (jsOrStr c7dec.answer "")
          DEFAULT_TTL c7env1.now,
        true, false⟩ ∧
    chatTurn c7req2
        { c7env1 with cache := (chatTurn c7req1 c7env1).cacheAfter, now := 1000 } =
      ⟨200, .ok (c7req1.botId.getD "") (jsOrStr c7dec.answer "") true,
        (chatTurn c7req1 c7env1).cacheAfter, false, false⟩ ∧
    getCache c7expiredCache "k" 10 = (none, eraseC c7expiredCache "k") ∧
    lookupC (eraseC c7expiredCache "k") "k" = none :=
  C7_cache_idempotence c7req1 c7req2 c7env1 sampleBot c7dec " Hi " "hi" 1000
    c7expiredCache "k" ⟨"v", 3⟩ 10
    rfl rfl (by decide) (by decide) (by decide) rfl (by decide) (by decide)
    (by decide) (by decide) rfl (by decide) rfl rfl (by decide)
    (by decide) (by decide)

/-! ### C9 — cache writes happen on success only -/

/-- C9: the cache write is tied to turn completion. If the turn ends in
any error (status other than 200), every key's observable cached value at
any later time is unchanged (the only possible mutation being the lazy
eviction of an already-expired entry, which is observationally invisible);
and whenever the turn completes freshly (body `ok` with `cached = false`),
the status is 200 and the composed answer sits in the cache under the
turn's key with the full default TTL. -/
theorem C9_cache_write_discipline (req : ChatReq) (env : ChatEnv)
    (r : ChatResult) (k : String) (now2 : Nat) (bid resp : String)
    (h : chatTurn req env = r) (hle : env.now ≤ now2) :
    (r.status ≠ 200 →
      (getCache r.cacheAfter k now2).fst = (getCache env.cache k now2).fst) ∧
    (r.body = ChatBody.ok bid resp false →
      r.status = 200 ∧
      lookupC r.cacheAfter
          (cacheKey (req.botId.getD "") (req.message.getD "")) =
        some ⟨resp, env.now + DEFAULT_TTL⟩) := by
  subst h
  have hobs := getCache_snd_obs env.cache
    (cacheKey (req.botId.getD "") (req.message.getD "")) k env.now now2 hle
  unfold chatTurn
  cases hcb : jsTruthy req.botId with
  | false => simp [hcb]
  | true =>
    cases hcm : jsTruthy req.message with
    | false => simp [hcb, hcm]
    | true =>
      cases hcs : jsTruthy req.sessionId with
      | false => simp [hcb, hcm, hcs]
      | true =>
        cases hcf : (getCache env.cache
            (cacheKey (req.botId.getD "") (req.message.getD "")) env.now).fst with
        | some v => simp [hcb, hcm, hcs, hcf]
        | none =>
          cases hbot : env.bot with
          | none =>
              simp [hcb, hcm, hcs, hcf, hbot]
              exact hobs
          | some bot =>
            by_cases hlen : env.chunks.length = 0
            · simp [hcb, hcm, hcs, hcf, hbot, hlen]
              exact hobs
            · cases hp : env.parsedModelOutput with
              | none =>
                  simp [hcb, hcm, hcs, hcf, hbot, hlen, hp]
                  exact hobs
              | some aiJson =>
                by_cases hac : (aiJson.action == some "call_api") = true
                · by_cases hep : (jsOrStr aiJson.endpoint "" == "") = true
                  · simp [hcb, hcm, hcs, hcf, hbot, hlen, hp, hac, hep]
                    exact hobs
                  · simp only [hcb, hcm, hcs, hcf, hbot, hlen, hp, hac, hep,
                      Bool.true_eq_false, if_false, if_true, ite_false, ite_true]
                    simp [ChatBody.ok.injEq]
                    intro _ e2
                    rw [← e2]
                    exact lookupC_setCache_self _ _ _ _ _
                · simp only [hcb, hcm, hcs, hcf, hbot, hlen, hp, hac,
                    Bool.true_eq_false, if_false, if_true, ite_false, ite_true]
                  simp [ChatBody.ok.injEq]
                  intro _ e2
                  rw [← e2]
                  exact lookupC_setCache_self _ _ _ _ _

/-- Witness for C9 at a concrete erroring turn (unknown bot): the cached
view of any key is unchanged, and the success clause is vacuous. -/
theorem C9_witness :
    ((chatTurn ⟨some "b1", some "hi", some "tok"⟩
        ⟨0, [], none, [], none, .errObj "x"⟩).status ≠ 200 →
      (getCache (chatTurn ⟨some "b1", some "hi", some "tok"⟩
          ⟨0, [], none, [], none, .errObj "x"⟩).cacheAfter "b1:hi" 50).fst =
        (getCache ([] : Cache) "b1:hi" 50).fst) ∧
    ((chatTurn ⟨some "b1", some "hi", some "tok"⟩
        ⟨0, [], none, [], none, .errObj "x"⟩).body =
          ChatBody.ok "b1" "whatever" false →
      (chatTurn ⟨some "b1", some "hi", some "tok"⟩
          ⟨0, [], none, [], none, .errObj "x"⟩).status = 200 ∧
      lookupC (chatTurn ⟨some "b1", some "hi", some "tok"⟩
            ⟨0, [], none, [], none, .errObj "x"⟩).cacheAfter
          (cacheKey ((some "b1").getD "") ((some "hi").getD "")) =
        some ⟨"whatever", 0 + DEFAULT_TTL⟩) :=
  C9_cache_write_discipline ⟨some "b1", some "hi", some "tok"⟩
    ⟨0, [], none, [], none, .errObj "x"⟩
    (chatTurn ⟨some "b1", some "hi", some "tok"⟩ ⟨0, [], none, [], none, .errObj "x"⟩)
    "b1:hi" 50 "b1" "whatever" rfl (by decide)

end EuclidBE
